import Mathlib

/-!
Shallow embedding of `src/train.py`, the training entry point of the
DPO-arithmetic repository: the adapter-disabling proxy
`ModelWithDisabledAdapter`, configuration validation, policy and reference
model construction, checkpoint restoration, and worker launch, together with
proofs of the specified properties.
-/

namespace DPOTrain

/-- State of a wrapped (adapter-augmented) model that the proxy manipulates:
the train/eval flag (`model.training`, toggled by `model.eval()` and
`model.train()`) and whether the attached adapter currently contributes to
the output (suppressed inside the scoped `model.disable_adapter()` context
manager). -/
structure AdapterModelState where
  training : Bool
  adapterEnabled : Bool
deriving DecidableEq

/-- Embedding of `ModelWithDisabledAdapter.__call__` (src/train.py lines
44-52); the closure `newfunc` built by `__getattribute__` (lines 32-39)
executes the same body, so both are modelled by this one function.
`forward` is the wrapped model's capability: it receives the model's current
training flag and adapter flag together with the call input, and either
returns a result or raises (`Except.error`).  Step by step, as in the
source: record `was_training`, call `model.eval()`, enter
`with model.disable_adapter():`, invoke the capability, leave the scope (the
context manager restores the adapter flag on the normal path and also when
the body raises), and call `model.train()` again only when `was_training`
held and the capability returned normally; a raise propagates past the
`model.train()` restoration. -/
def ModelWithDisabledAdapter.call {α β ε : Type} (forward : Bool → Bool → α → Except ε β)
    (s : AdapterModelState) (x : α) : Except ε β × AdapterModelState :=
  let was_training := s.training
  let sEval : AdapterModelState := { s with training := false }
  let savedAdapter := sEval.adapterEnabled
  let sDisabled : AdapterModelState := { sEval with adapterEnabled := false }
  match forward sDisabled.training sDisabled.adapterEnabled x with
  | Except.ok result =>
      let sScopeExit : AdapterModelState := { sDisabled with adapterEnabled := savedAdapter }
      let sFinal : AdapterModelState :=
        if was_training then { sScopeExit with training := true } else sScopeExit
      (Except.ok result, sFinal)
  | Except.error e =>
      let sScopeExit : AdapterModelState := { sDisabled with adapterEnabled := savedAdapter }
      (Except.error e, sScopeExit)

/-- An attribute of the wrapped model as fetched by `getattr(model, name)` in
`__getattribute__`: either a callable capability or a plain (non-callable)
value. -/
inductive ModelAttr (α β ε γ : Type) where
  | callableAttr (f : Bool → Bool → α → Except ε β)
  | plainValue (v : γ)

/-- What the proxy hands back for an attribute access: the wrapping closure
`newfunc`, or the plain value untouched. -/
inductive ProxyAttr (α β ε γ : Type) where
  | wrapped (g : AdapterModelState → α → Except ε β × AdapterModelState)
  | plainValue (v : γ)

/-- Embedding of `ModelWithDisabledAdapter.__getattribute__` (src/train.py
lines 26-42): fetch the attribute from the wrapped model; if it is callable,
return the `newfunc` closure (whose body is `ModelWithDisabledAdapter.call`);
otherwise return the attribute unchanged. -/
def ModelWithDisabledAdapter.getattribute {α β ε γ : Type}
    (attrs : String → ModelAttr α β ε γ) (nm : String) : ProxyAttr α β ε γ :=
  match attrs nm with
  | ModelAttr.callableAttr f => ProxyAttr.wrapped (ModelWithDisabledAdapter.call f)
  | ModelAttr.plainValue v => ProxyAttr.plainValue v

/-- C1: every invocation through the proxy — a direct call or a callable
attribute fetched through it — returns exactly what the wrapped capability
returns when evaluated with training mode forced off and the adapter's
contribution suppressed (the base model's result on the same input), and a
non-callable attribute is returned unchanged with no mode manipulation. -/
theorem claim1_proxy_forwarding {α β ε γ : Type}
    (f g : Bool → Bool → α → Except ε β) (s : AdapterModelState) (x : α)
    (attrs : String → ModelAttr α β ε γ) (nm : String) (v : γ) :
    (ModelWithDisabledAdapter.call f s x).1 = f false false x
    ∧ (attrs nm = ModelAttr.callableAttr g →
        ModelWithDisabledAdapter.getattribute attrs nm
          = ProxyAttr.wrapped (ModelWithDisabledAdapter.call g))
    ∧ (attrs nm = ModelAttr.plainValue v →
        ModelWithDisabledAdapter.getattribute attrs nm = ProxyAttr.plainValue v) := by
  refine ⟨?_, ?_, ?_⟩
  · cases h : f false false x <;>
      simp [ModelWithDisabledAdapter.call, h]
  · intro h
    simp [ModelWithDisabledAdapter.getattribute, h]
  · intro h
    simp [ModelWithDisabledAdapter.getattribute, h]

/-- Example capability that returns normally: used to instantiate the proxy
theorems at concrete inputs. -/
def exampleForward : Bool → Bool → Nat → Except Unit Nat := fun _ _ x => Except.ok (x + 1)

/-- Example capability that raises. -/
def exampleFailing : Bool → Bool → Nat → Except Unit Nat := fun _ _ _ => Except.error ()

/-- Example attribute table of a wrapped model: `generate` is callable,
everything else is a plain value. -/
def exampleAttrs : String → ModelAttr Nat Nat Unit Nat := fun nm =>
  if nm = "generate" then ModelAttr.callableAttr exampleForward else ModelAttr.plainValue 7

theorem claim1_proxy_forwarding_inst :
    (ModelWithDisabledAdapter.call exampleForward ⟨true, true⟩ 3).1 = exampleForward false false 3
    ∧ ModelWithDisabledAdapter.getattribute exampleAttrs "generate"
        = ProxyAttr.wrapped (ModelWithDisabledAdapter.call exampleForward)
    ∧ ModelWithDisabledAdapter.getattribute exampleAttrs "config" = ProxyAttr.plainValue 7 := by
  obtain ⟨h1, h2, -⟩ :=
    claim1_proxy_forwarding exampleForward exampleForward ⟨true, true⟩ 3 exampleAttrs "generate" 7
  obtain ⟨-, -, h3⟩ :=
    claim1_proxy_forwarding exampleForward exampleForward ⟨true, true⟩ 3 exampleAttrs "config" 7
  refine ⟨h1, h2 (by simp [exampleAttrs]), h3 ?_⟩
  simp [exampleAttrs]

/-- C2: when the wrapped capability returns normally, the wrapped model's
train/eval mode after the proxy call equals its mode before the call,
whichever it was. -/
theorem claim2_mode_restored {α β ε : Type} (f : Bool → Bool → α → Except ε β)
    (s : AdapterModelState) (x : α) (r : β) (h : f false false x = Except.ok r) :
    ((ModelWithDisabledAdapter.call f s x).2).training = s.training := by
  cases hs : s.training <;>
    simp [ModelWithDisabledAdapter.call, h, hs]

theorem claim2_mode_restored_inst :
    ((ModelWithDisabledAdapter.call exampleForward ⟨true, true⟩ 3).2).training = true
    ∧ ((ModelWithDisabledAdapter.call exampleForward ⟨false, true⟩ 3).2).training = false :=
  ⟨claim2_mode_restored exampleForward ⟨true, true⟩ 3 4 rfl,
   claim2_mode_restored exampleForward ⟨false, true⟩ 3 4 rfl⟩

/-- C3: when the wrapped capability raises, the exception propagates, the
adapter-suppression scope is still exited (the adapter flag is restored to
its prior state by the context manager), but the train/eval restoration is
skipped: the model is left in evaluation mode even if it was training
before the call. -/
theorem claim3_error_path {α β ε : Type} (f : Bool → Bool → α → Except ε β)
    (s : AdapterModelState) (x : α) (e : ε) (h : f false false x = Except.error e) :
    (ModelWithDisabledAdapter.call f s x).1 = Except.error e
    ∧ ((ModelWithDisabledAdapter.call f s x).2).adapterEnabled = s.adapterEnabled
    ∧ ((ModelWithDisabledAdapter.call f s x).2).training = false := by
  refine ⟨?_, ?_, ?_⟩ <;> simp [ModelWithDisabledAdapter.call, h]

theorem claim3_error_path_inst :
    (ModelWithDisabledAdapter.call exampleFailing ⟨true, true⟩ 3).1 = Except.error ()
    ∧ ((ModelWithDisabledAdapter.call exampleFailing ⟨true, true⟩ 3).2).adapterEnabled = true
    ∧ ((ModelWithDisabledAdapter.call exampleFailing ⟨true, true⟩ 3).2).training = false :=
  claim3_error_path exampleFailing ⟨true, true⟩ 3 () rfl

/-- The `wandb` section of the run configuration (tracking settings). -/
structure WandbCfg where
  enabled : Bool
  entity : String
  project : String
deriving DecidableEq

/-- The `lora` section of the run configuration (adapter settings). -/
structure LoraCfg where
  enabled : Bool
  lora_r : Nat
  lora_alpha : Nat
  lora_dropout : ℚ
deriving DecidableEq

/-- The `model` section of the run configuration. -/
structure ModelCfg where
  name_or_path : String
  policy_dtype : String
  reference_dtype : String
  archive : Option String
deriving DecidableEq

/-- The resolved run configuration read by `main` (src/train.py).
`missing_keys` models the result of `OmegaConf.missing_keys(config)`:
the set of declared-required keys left unresolved after resolution. -/
structure Config where
  exp_name : String
  trainer : String
  batch_size : Nat
  eval_every : Nat
  model : ModelCfg
  lora : LoraCfg
  loss_name : String
  wandb : WandbCfg
  debug : Bool
  fsdp_port : Nat
  seed : Nat
  local_run_dir : String
  missing_keys : List String
deriving DecidableEq

/-- A checkpoint record as stored at `<archive>/policy.pt`: step index,
metrics mapping, and the `state` weights mapping (represented by an opaque
numeric identifier of the weight values). -/
structure Checkpoint where
  step_idx : Nat
  metrics : List (String × Int)
  state : Nat
deriving DecidableEq

/-- A constructed model object.  `base` is the result of
`transformers.AutoModelForCausalLM.from_pretrained` (identifier, dtype,
whether `disable_dropout` has been applied, whether the `device_map:
balanced` kwarg was passed, and which weights mapping, if any, was loaded
into it by `load_state_dict`); `peft` is `get_peft_model(base, lora_config)`
with the adapter hyperparameters; `peftFromArchive` is
`PeftModel.from_pretrained(base, archive, is_trainable=...)`. -/
inductive Model where
  | base (name_or_path : String) (dtype : String) (dropoutDisabled : Bool)
      (deviceMapBalanced : Bool) (loadedState : Option Nat)
  | peft (b : Model) (r : Nat) (alpha : Nat) (dropout : ℚ)
  | peftFromArchive (b : Model) (archive : String) (isTrainable : Bool)
deriving DecidableEq

/-- Modelled from the spec: `disable_dropout` lives in `utils.py`, which is
not part of the sources; per §4.2 of the spec it disables dropout-style
regularization network-wide as a pure side effect on the loaded model.  It is
only ever applied to a freshly loaded base model in `train.py`. -/
def disable_dropout : Model → Model
  | Model.base n d _ dm ls => Model.base n d true dm ls
  | m => m

/-- `model.load_state_dict(state)`: installs the given weights mapping into
the model.  In `train.py` it is only applied to full (non-adapter) models. -/
def load_state_dict : Model → Nat → Model
  | Model.base n d dd dm _, sid => Model.base n d dd dm (some sid)
  | m, _ => m

/-- The reference model chosen for a run: none, the adapter-disabling proxy
over the policy model, or an independently loaded frozen copy. -/
inductive Reference where
  | noRef
  | disabledAdapterProxy (m : Model)
  | frozen (m : Model)
deriving DecidableEq

/-- Fatal errors the entry point can raise. -/
inductive Err where
  | missingKeys (keys : List String)
  | checkpointMissing (path : String)
  | unknownTrainer (nm : String)
deriving DecidableEq

/-- Observable events of a run, used to state ordering properties. -/
inductive Event where
  | warnedEvalEvery (oldV newV : Nat)
  | builtModel (name_or_path dtype : String) (deviceMapBalanced : Bool)
  | addedLora
  | loadedCheckpoint (archive : String) (step : Nat)
  | spawnedWorkers (n : Nat) (join : Bool)
  | ranWorkerInline
  | workerStarted (rank world : Nat)
  | rendezvoused (rank world port : Nat)
  | trackerInit (noop : Bool)
  | resolvedTrainer (nm : String)
  | trainedAndSaved (rank : Nat)
deriving DecidableEq

/-- Config validation step of `main` (src/train.py lines 89-96), after the
missing-key check: if `eval_every % batch_size != 0`, warn and set
`eval_every` to `eval_every - eval_every % batch_size`, mutating the
in-memory config. -/
def validateEvalEvery (config : Config) : Config × List Event :=
  if config.eval_every % config.batch_size ≠ 0 then
    ({ config with eval_every := config.eval_every - config.eval_every % config.batch_size },
     [Event.warnedEvalEvery config.eval_every
        (config.eval_every - config.eval_every % config.batch_size)])
  else (config, [])

/-- Only the `eval_every` field of the config is touched by
`validateEvalEvery`. -/
theorem validateEvalEvery_fields (cfg : Config) :
    (validateEvalEvery cfg).1.trainer = cfg.trainer
    ∧ (validateEvalEvery cfg).1.model = cfg.model
    ∧ (validateEvalEvery cfg).1.lora = cfg.lora
    ∧ (validateEvalEvery cfg).1.loss_name = cfg.loss_name
    ∧ (validateEvalEvery cfg).1.wandb = cfg.wandb
    ∧ (validateEvalEvery cfg).1.debug = cfg.debug
    ∧ (validateEvalEvery cfg).1.fsdp_port = cfg.fsdp_port
    ∧ (validateEvalEvery cfg).1.batch_size = cfg.batch_size
    ∧ (validateEvalEvery cfg).1.missing_keys = cfg.missing_keys := by
  unfold validateEvalEvery
  split <;> simp

/-- Validation is a no-op on a config whose `eval_every` is already a
multiple of `batch_size`. -/
theorem validateEvalEvery_noop (c : Config) (h0 : c.eval_every % c.batch_size = 0) :
    validateEvalEvery c = (c, []) := by
  unfold validateEvalEvery
  rw [if_neg (by omega)]

/-- C5: for every configuration with a positive batch size where
`eval_every % batch_size != 0`, validation emits exactly one non-fatal
warning event and replaces `eval_every` with the largest multiple of
`batch_size` not exceeding the original value; the adjusted value is
divisible by `batch_size` and no larger than the original, and re-running
validation on the adjusted config changes nothing. -/
theorem claim5_eval_every_adjustment (cfg : Config)
    (hb : 0 < cfg.batch_size) (h : cfg.eval_every % cfg.batch_size ≠ 0) :
    (validateEvalEvery cfg).1.eval_every % cfg.batch_size = 0
    ∧ (validateEvalEvery cfg).1.eval_every ≤ cfg.eval_every
    ∧ (∀ m, m % cfg.batch_size = 0 → m ≤ cfg.eval_every →
        m ≤ (validateEvalEvery cfg).1.eval_every)
    ∧ (validateEvalEvery cfg).2
        = [Event.warnedEvalEvery cfg.eval_every (validateEvalEvery cfg).1.eval_every]
    ∧ validateEvalEvery (validateEvalEvery cfg).1 = ((validateEvalEvery cfg).1, []) := by
  have hval : (validateEvalEvery cfg).1.eval_every
      = cfg.eval_every - cfg.eval_every % cfg.batch_size := by
    unfold validateEvalEvery
    rw [if_pos h]
  have hdm := Nat.div_add_mod cfg.eval_every cfg.batch_size
  have hsub : cfg.eval_every - cfg.eval_every % cfg.batch_size
      = cfg.batch_size * (cfg.eval_every / cfg.batch_size) := by omega
  have hmod : (validateEvalEvery cfg).1.eval_every % cfg.batch_size = 0 := by
    rw [hval, hsub]
    exact Nat.mul_mod_right _ _
  refine ⟨hmod, ?_, ?_, ?_, ?_⟩
  · rw [hval]
    exact Nat.sub_le _ _
  · intro m hm hle
    have hmrep := Nat.div_add_mod m cfg.batch_size
    have hdivle : m / cfg.batch_size ≤ cfg.eval_every / cfg.batch_size :=
      Nat.div_le_div_right hle
    have : cfg.batch_size * (m / cfg.batch_size)
        ≤ cfg.batch_size * (cfg.eval_every / cfg.batch_size) :=
      Nat.mul_le_mul_left _ hdivle
    omega
  · unfold validateEvalEvery
    rw [if_pos h]
  · obtain ⟨-, -, -, -, -, -, -, hbs, -⟩ := validateEvalEvery_fields cfg
    exact validateEvalEvery_noop _ (by rw [hbs]; exact hmod)

/-- Baseline example configuration: BasicTrainer, DPO loss, no adapter, no
checkpoint archive, all keys resolved. -/
def exCfgBase : Config :=
  { exp_name := "exp"
    trainer := "BasicTrainer"
    batch_size := 4
    eval_every := 8
    model :=
      { name_or_path := "pythia"
        policy_dtype := "float32"
        reference_dtype := "float16"
        archive := none }
    lora := { enabled := false, lora_r := 8, lora_alpha := 16, lora_dropout := 0 }
    loss_name := "dpo"
    wandb := { enabled := false, entity := "e", project := "p" }
    debug := false
    fsdp_port := 12355
    seed := 0
    local_run_dir := "run"
    missing_keys := [] }

/-- Example configuration with `eval_every = 100`, `batch_size = 30`. -/
def exCfg100 : Config := { exCfgBase with eval_every := 100, batch_size := 30 }

theorem claim5_eval_every_adjustment_inst :
    (validateEvalEvery exCfg100).1.eval_every = 90
    ∧ (validateEvalEvery exCfg100).1.eval_every % 30 = 0
    ∧ (validateEvalEvery exCfg100).1.eval_every ≤ 100
    ∧ (validateEvalEvery exCfg100).2 = [Event.warnedEvalEvery 100 90]
    ∧ validateEvalEvery (validateEvalEvery exCfg100).1 = ((validateEvalEvery exCfg100).1, []) := by
  obtain ⟨-, -, -, -, h5⟩ :=
    claim5_eval_every_adjustment exCfg100 (by decide) (by decide)
  exact ⟨by decide, by decide, by decide, by decide, h5⟩

/-- Policy model construction (src/train.py lines 109-133): load the base
model with the policy dtype (passing `device_map: balanced` exactly when the
trainer is `BasicTrainer`, a choice the caller passes in as `dm`), disable
dropout, and, when `lora.enabled`, wrap it with `get_peft_model` using the
configured adapter hyperparameters. -/
def buildPolicy (config : Config) (dm : Bool) : Model × List Event :=
  let m0 := disable_dropout
    (Model.base config.model.name_or_path config.model.policy_dtype false dm none)
  if config.lora.enabled then
    (Model.peft m0 config.lora.lora_r config.lora.lora_alpha config.lora.lora_dropout,
     [Event.builtModel config.model.name_or_path config.model.policy_dtype dm,
      Event.addedLora])
  else
    (m0, [Event.builtModel config.model.name_or_path config.model.policy_dtype dm])

/-- Reference model selection (src/train.py lines 135-145): when the loss is
`dpo` and adapters are enabled, the reference is `ModelWithDisabledAdapter`
over the policy; when the loss is `dpo` and adapters are disabled, a second
model is loaded independently with the reference dtype and its dropout is
disabled; otherwise there is no reference model. -/
def buildReference (config : Config) (policy : Model) (dm : Bool) : Reference × List Event :=
  if config.loss_name = "dpo" then
    if config.lora.enabled then
      (Reference.disabledAdapterProxy policy, [])
    else
      (Reference.frozen (disable_dropout
          (Model.base config.model.name_or_path config.model.reference_dtype false dm none)),
       [Event.builtModel config.model.name_or_path config.model.reference_dtype dm])
  else (Reference.noRef, [])

/-- Checkpoint restoration (src/train.py lines 147-162).  When an archive is
configured, `<archive>/policy.pt` is read (step index, metrics, weights).
With adapters enabled, the previously built policy is discarded: a fresh base
model is loaded, dropout-disabled, and the adapter weights are loaded from
the archive via `PeftModel.from_pretrained(..., is_trainable=True)`; if the
loss is `dpo` a fresh proxy over this restored policy replaces the
reference.  With adapters disabled, the weights are loaded into the existing
policy and, when the loss is `dpo`, into the frozen reference as well.  The
step index and metrics read from the record are returned alongside. -/
def restoreCheckpoint (config : Config) (ckptAt : String → Option Checkpoint)
    (policy : Model) (refm : Reference) (dm : Bool) :
    Except Err (Model × Reference × Option (Nat × List (String × Int))) × List Event :=
  match config.model.archive with
  | none => (Except.ok (policy, refm, none), [])
  | some a =>
    match ckptAt a with
    | none => (Except.error (Err.checkpointMissing a), [])
    | some ck =>
      if config.lora.enabled then
        let fresh := disable_dropout
          (Model.base config.model.name_or_path config.model.policy_dtype false dm none)
        let policy2 := Model.peftFromArchive fresh a true
        let refm2 :=
          if config.loss_name = "dpo" then Reference.disabledAdapterProxy policy2 else refm
        (Except.ok (policy2, refm2, some (ck.step_idx, ck.metrics)),
         [Event.loadedCheckpoint a ck.step_idx,
          Event.builtModel config.model.name_or_path config.model.policy_dtype dm])
      else
        let policy2 := load_state_dict policy ck.state
        let refm2 :=
          if config.loss_name = "dpo" then
            match refm with
            | Reference.frozen m => Reference.frozen (load_state_dict m ck.state)
            | r => r
          else refm
        (Except.ok (policy2, refm2, some (ck.step_idx, ck.metrics)),
         [Event.loadedCheckpoint a ck.step_idx])

/-- C4: the reference model follows the decision table exactly: no reference
unless the loss is `dpo`; with `dpo` and adapters enabled, the
adapter-disabling proxy over the very policy model (no second copy); with
`dpo` and adapters disabled, an independently loaded instance with its own
configured dtype and dropout disabled. -/
theorem claim4_reference_selection (cfg : Config) (policy : Model) (dm : Bool) :
    (cfg.loss_name ≠ "dpo" → (buildReference cfg policy dm).1 = Reference.noRef)
    ∧ (cfg.loss_name = "dpo" → cfg.lora.enabled = true →
        (buildReference cfg policy dm).1 = Reference.disabledAdapterProxy policy)
    ∧ (cfg.loss_name = "dpo" → cfg.lora.enabled = false →
        (buildReference cfg policy dm).1
          = Reference.frozen
              (Model.base cfg.model.name_or_path cfg.model.reference_dtype true dm none)) := by
  refine ⟨fun h => ?_, fun h1 h2 => ?_, fun h1 h2 => ?_⟩ <;>
    simp [buildReference, disable_dropout, *]

/-- Example already-built policy model. -/
def examplePolicy : Model := Model.base "pythia" "float32" true true none

/-- Example configuration with a non-`dpo` loss. -/
def exCfgSft : Config := { exCfgBase with loss_name := "sft" }

/-- Example configuration with adapters enabled. -/
def exCfgLora : Config :=
  { exCfgBase with lora := { enabled := true, lora_r := 8, lora_alpha := 16, lora_dropout := 0 } }

theorem claim4_reference_selection_inst :
    (buildReference exCfgSft examplePolicy true).1 = Reference.noRef
    ∧ (buildReference exCfgLora examplePolicy true).1
        = Reference.disabledAdapterProxy examplePolicy
    ∧ (buildReference exCfgBase examplePolicy true).1
        = Reference.frozen (Model.base "pythia" "float16" true true none) := by
  obtain ⟨hA, -, -⟩ := claim4_reference_selection exCfgSft examplePolicy true
  obtain ⟨-, hB, -⟩ := claim4_reference_selection exCfgLora examplePolicy true
  obtain ⟨-, -, hC⟩ := claim4_reference_selection exCfgBase examplePolicy true
  exact ⟨hA (by decide), hB rfl rfl, hC rfl rfl⟩

/-- C8: restoring a full-weights checkpoint (archive configured, adapters
disabled) loads the checkpoint's weights into the policy and, when the loss
requires a reference (a frozen copy exists), the same weights into the
reference as well, so both carry the identical weights mapping afterwards;
the step index and metrics are read from the archive's policy record.  When
no reference is needed, only the policy is loaded. -/
theorem claim8_full_weights_restore (cfg : Config) (a : String) (ck : Checkpoint)
    (ckptAt : String → Option Checkpoint) (n d1 d2 : String) (dd1 dd2 dm dm2 : Bool)
    (ls1 ls2 : Option Nat)
    (harc : cfg.model.archive = some a) (hck : ckptAt a = some ck)
    (hlora : cfg.lora.enabled = false) :
    (cfg.loss_name = "dpo" →
      restoreCheckpoint cfg ckptAt (Model.base n d1 dd1 dm ls1)
          (Reference.frozen (Model.base n d2 dd2 dm2 ls2)) dm
        = (Except.ok (Model.base n d1 dd1 dm (some ck.state),
            Reference.frozen (Model.base n d2 dd2 dm2 (some ck.state)),
            some (ck.step_idx, ck.metrics)),
           [Event.loadedCheckpoint a ck.step_idx]))
    ∧ (cfg.loss_name ≠ "dpo" →
      restoreCheckpoint cfg ckptAt (Model.base n d1 dd1 dm ls1) Reference.noRef dm
        = (Except.ok (Model.base n d1 dd1 dm (some ck.state), Reference.noRef,
            some (ck.step_idx, ck.metrics)),
           [Event.loadedCheckpoint a ck.step_idx])) := by
  constructor <;> intro h <;>
    simp [restoreCheckpoint, harc, hck, hlora, h, load_state_dict]

/-- Example checkpoint stored at archive `ckpt`. -/
def exCkpt : Checkpoint := { step_idx := 120, metrics := [("loss", 1)], state := 42 }

/-- Example archive lookup: only `ckpt` holds a record. -/
def exCkptAt : String → Option Checkpoint := fun s => if s = "ckpt" then some exCkpt else none

/-- Example configuration with a checkpoint archive and no adapters. -/
def exCfgArch : Config :=
  { exCfgBase with model := { exCfgBase.model with archive := some "ckpt" } }

theorem claim8_full_weights_restore_inst :
    restoreCheckpoint exCfgArch exCkptAt (Model.base "pythia" "float32" true true none)
        (Reference.frozen (Model.base "pythia" "float16" true true none)) true
      = (Except.ok (Model.base "pythia" "float32" true true (some 42),
          Reference.frozen (Model.base "pythia" "float16" true true (some 42)),
          some (120, [("loss", 1)])),
         [Event.loadedCheckpoint "ckpt" 120]) :=
  (claim8_full_weights_restore exCfgArch "ckpt" exCkpt exCkptAt "pythia" "float32" "float16"
      true true true true none none rfl (by simp [exCkptAt]) rfl).1 rfl

/-- C10: restoring a checkpoint with adapters enabled discards the policy
built from the run configuration's adapter settings: a fresh base model is
loaded and the adapter comes from the archive, so neither the previously
built policy nor the configured adapter hyperparameters influence the
result; the step index and metrics still come from the archive's policy
record, and when the loss is `dpo` a fresh proxy over the restored policy
replaces any previously built reference. -/
theorem claim10_adapter_restore (cfg : Config) (a : String) (ck : Checkpoint)
    (ckptAt : String → Option Checkpoint) (policy : Model) (refm : Reference) (dm : Bool)
    (harc : cfg.model.archive = some a) (hck : ckptAt a = some ck)
    (hlora : cfg.lora.enabled = true) :
    restoreCheckpoint cfg ckptAt policy refm dm
      = (Except.ok
          (Model.peftFromArchive
            (Model.base cfg.model.name_or_path cfg.model.policy_dtype true dm none) a true,
           (if cfg.loss_name = "dpo" then
              Reference.disabledAdapterProxy
                (Model.peftFromArchive
                  (Model.base cfg.model.name_or_path cfg.model.policy_dtype true dm none) a true)
            else refm),
           some (ck.step_idx, ck.metrics)),
         [Event.loadedCheckpoint a ck.step_idx,
          Event.builtModel cfg.model.name_or_path cfg.model.policy_dtype dm])
    ∧ (∀ (policy2 : Model) (r al : Nat) (dr : ℚ),
        restoreCheckpoint
            { cfg with
                lora := { enabled := true, lora_r := r, lora_alpha := al, lora_dropout := dr } }
            ckptAt policy2 refm dm
          = restoreCheckpoint cfg ckptAt policy refm dm) := by
  constructor
  · simp [restoreCheckpoint, harc, hck, hlora, disable_dropout]
  · intro policy2 r al dr
    simp [restoreCheckpoint, harc, hck, hlora, disable_dropout]

/-- Example configuration with adapters enabled and a checkpoint archive. -/
def exCfgLoraArch : Config :=
  { exCfgBase with
      lora := { enabled := true, lora_r := 8, lora_alpha := 16, lora_dropout := 0 },
      model := { exCfgBase.model with archive := some "ckpt" } }

theorem claim10_adapter_restore_inst :
    restoreCheckpoint exCfgLoraArch exCkptAt examplePolicy Reference.noRef true
      = (Except.ok
          (Model.peftFromArchive (Model.base "pythia" "float32" true true none) "ckpt" true,
           Reference.disabledAdapterProxy
             (Model.peftFromArchive (Model.base "pythia" "float32" true true none) "ckpt" true),
           some (120, [("loss", 1)])),
         [Event.loadedCheckpoint "ckpt" 120, Event.builtModel "pythia" "float32" true])
    ∧ restoreCheckpoint
          { exCfgLoraArch with
              lora := { enabled := true, lora_r := 64, lora_alpha := 128, lora_dropout := 0 } }
          exCkptAt (Model.base "other" "x" false false none) Reference.noRef true
        = restoreCheckpoint exCfgLoraArch exCkptAt examplePolicy Reference.noRef true := by
  obtain ⟨h1, h2⟩ := claim10_adapter_restore exCfgLoraArch "ckpt" exCkpt exCkptAt examplePolicy
      Reference.noRef true rfl (by simp [exCkptAt]) rfl
  exact ⟨h1, h2 (Model.base "other" "x" false false none) 64 128 0⟩

/-- Whether `pat` occurs as a contiguous prefix of `s` (on character
lists). -/
def charListPrefixOf : List Char → List Char → Bool
  | [], _ => true
  | _ :: _, [] => false
  | a :: as, b :: bs => a == b && charListPrefixOf as bs

/-- Whether `pat` occurs contiguously anywhere in `s` (on character
lists). -/
def charListOccurs (pat : List Char) : List Char → Bool
  | [] => charListPrefixOf pat []
  | c :: rest => charListPrefixOf pat (c :: rest) || charListOccurs pat rest

/-- Python's `pat in s` substring test on strings, as used by
`'FSDP' in config.trainer`. -/
def strContains (s pat : String) : Bool := charListOccurs pat.toList s.toList

/-- Modelled from the spec: the external `trainers` module (not among the
sources) exposes a fixed set of trainer variants (spec §2, §4.7; the
docstring of `worker_main` names `BasicTrainer` and `TensorParallelTrainer`,
and the FSDP variant is selected by substring).  `getattr(trainers, name)`
on any other name is a fatal error. -/
def knownTrainers : List String := ["BasicTrainer", "FSDPTrainer", "TensorParallelTrainer"]

/-- Embedding of `worker_main` (src/train.py lines 55-79), run once per
rank: perform process-group rendezvous exactly when the trainer name
contains `FSDP`; in debug mode the tracker calls become no-ops; on rank 0
with tracking enabled, initialize the tracker; resolve the configured
trainer variant (`getattr(trainers, config.trainer)` — fatal if unknown),
then train and save. -/
def worker_main (config : Config) (rank world_size : Nat) : Except Err Unit × List Event :=
  let evStart := [Event.workerStarted rank world_size]
  let evRdv :=
    if strContains config.trainer "FSDP" then
      [Event.rendezvoused rank world_size config.fsdp_port]
    else []
  let evTrack :=
    if rank = 0 ∧ config.wandb.enabled = true then [Event.trackerInit config.debug] else []
  if config.trainer ∈ knownTrainers then
    (Except.ok (),
     evStart ++ evRdv ++ evTrack
       ++ [Event.resolvedTrainer config.trainer, Event.trainedAndSaved rank])
  else
    (Except.error (Err.unknownTrainer config.trainer), evStart ++ evRdv ++ evTrack)

/-- Worker launch (src/train.py lines 164-170): if the trainer name contains
`FSDP`, spawn `device_count` worker processes (ranks `0..device_count-1`,
each with `world_size = device_count`) and join them all (`join=True`); the
parent fails iff some worker failed, observed only after all are waited on.
Otherwise run the worker body directly in the calling process as rank 0
with world size 1. -/
def launch (config : Config) (device_count : Nat) : Except Err Unit × List Event :=
  if strContains config.trainer "FSDP" then
    let runs := (List.range device_count).map (fun r => worker_main config r device_count)
    ((match runs.findSome?
          (fun p => match p.1 with | Except.error e => some e | Except.ok _ => none) with
      | some e => Except.error e
      | none => Except.ok ()),
     Event.spawnedWorkers device_count true :: (runs.map Prod.snd).flatten)
  else
    ((worker_main config 0 1).1, Event.ranWorkerInline :: (worker_main config 0 1).2)

/-- The `(rank, world_size)` pairs of the worker bodies that actually ran,
read off an event trace. -/
def startedWorkers (evs : List Event) : List (Nat × Nat) :=
  evs.filterMap (fun e => match e with | Event.workerStarted r w => some (r, w) | _ => none)

/-- Whether an event is a process-group rendezvous. -/
def Event.isRdv : Event → Bool
  | Event.rendezvoused _ _ _ => true
  | _ => false

/-- Whether an event is a multi-process spawn. -/
def Event.isSpawn : Event → Bool
  | Event.spawnedWorkers _ _ => true
  | _ => false

/-- The part of `main` after config validation (src/train.py lines 98-170),
on the already-validated config: compute the `device_map` kwarg choice
(`BasicTrainer` only), build the policy, select the reference, restore a
checkpoint if configured, and launch the worker(s). -/
def runValidated (cfg : Config) (ckptAt : String → Option Checkpoint) (device_count : Nat) :
    Except Err (Model × Reference) × List Event :=
  let dm : Bool := cfg.trainer == "BasicTrainer"
  let p := buildPolicy cfg dm
  let r := buildReference cfg p.1 dm
  let c := restoreCheckpoint cfg ckptAt p.1 r.1 dm
  match c.1 with
  | Except.error e => (Except.error e, p.2 ++ r.2 ++ c.2)
  | Except.ok (policy2, refm2, _) =>
      let l := launch cfg device_count
      ((match l.1 with
        | Except.ok _ => Except.ok (policy2, refm2)
        | Except.error e => Except.error e),
       p.2 ++ r.2 ++ c.2 ++ l.2)

/-- The whole entry point `main` (src/train.py lines 82-170): missing-key
check, `eval_every` adjustment, then the post-validation stage, producing
the final policy and reference together with the event trace. -/
def runMain (config : Config) (ckptAt : String → Option Checkpoint) (device_count : Nat) :
    Except Err (Model × Reference) × List Event :=
  if config.missing_keys ≠ [] then
    (Except.error (Err.missingKeys config.missing_keys), [])
  else
    let v := validateEvalEvery config
    ((runValidated v.1 ckptAt device_count).1,
     v.2 ++ (runValidated v.1 ckptAt device_count).2)

theorem startedWorkers_append (l1 l2 : List Event) :
    startedWorkers (l1 ++ l2) = startedWorkers l1 ++ startedWorkers l2 := by
  unfold startedWorkers
  exact List.filterMap_append _ _ _

theorem startedWorkers_worker_main (cfg : Config) (r w : Nat) :
    startedWorkers (worker_main cfg r w).2 = [(r, w)] := by
  unfold worker_main
  split <;> unfold startedWorkers <;> split_ifs <;> simp

theorem startedWorkers_spawn (cfg : Config) (w : Nat) (l : List Nat) :
    startedWorkers ((l.map (fun r => (worker_main cfg r w).2)).flatten)
      = l.map (fun r => (r, w)) := by
  induction l with
  | nil => rfl
  | cons a t ih =>
      simp only [List.map_cons, List.flatten_cons]
      rw [startedWorkers_append, startedWorkers_worker_main, ih]
      rfl

theorem worker_main_no_rdv (cfg : Config) (r w : Nat)
    (h : strContains cfg.trainer "FSDP" = false) :
    (worker_main cfg r w).2.any Event.isRdv = false := by
  unfold worker_main
  split <;> split_ifs <;> simp_all [Event.isRdv]

theorem worker_main_no_spawn (cfg : Config) (r w : Nat) :
    (worker_main cfg r w).2.any Event.isSpawn = false := by
  unfold worker_main
  split <;> split_ifs <;> simp [Event.isSpawn]

/-- C6: when the trainer variant requires distributed execution (name
contains `FSDP`), exactly `device_count` worker bodies run, with ranks
forming the contiguous sequence `0..device_count-1` and world size
`device_count`, and the parent spawns them with blocking join semantics;
otherwise exactly one worker body runs inline as rank 0 with world size 1,
with no spawn and no process-group rendezvous attempted. -/
theorem claim6_topology (cfg : Config) (dc : Nat) :
    (strContains cfg.trainer "FSDP" = true →
      startedWorkers (launch cfg dc).2 = (List.range dc).map (fun r => (r, dc))
      ∧ Event.spawnedWorkers dc true ∈ (launch cfg dc).2)
    ∧ (strContains cfg.trainer "FSDP" = false →
      startedWorkers (launch cfg dc).2 = [(0, 1)]
      ∧ Event.ranWorkerInline ∈ (launch cfg dc).2
      ∧ (launch cfg dc).2.any Event.isRdv = false
      ∧ (launch cfg dc).2.any Event.isSpawn = false) := by
  constructor
  · intro h
    unfold launch
    rw [if_pos h]
    constructor
    · show startedWorkers (Event.spawnedWorkers dc true :: _) = _
      unfold startedWorkers
      rw [List.filterMap_cons]
      show startedWorkers _ = _
      rw [List.map_map]
      exact startedWorkers_spawn cfg dc (List.range dc)
    · exact List.mem_cons_self _ _
  · intro h
    unfold launch
    rw [if_neg (by simp [h])]
    refine ⟨?_, List.mem_cons_self _ _, ?_, ?_⟩
    · show startedWorkers (Event.ranWorkerInline :: _) = _
      unfold startedWorkers
      rw [List.filterMap_cons]
      exact startedWorkers_worker_main cfg 0 1
    · simp [List.any_cons, Event.isRdv, worker_main_no_rdv cfg 0 1 h]
    · simp [List.any_cons, Event.isSpawn, worker_main_no_spawn cfg 0 1]

/-- Example configuration selecting the distributed trainer variant. -/
def exCfgFSDP : Config := { exCfgBase with trainer := "FSDPTrainer" }

theorem claim6_topology_inst :
    startedWorkers (launch exCfgFSDP 2).2 = [(0, 2), (1, 2)]
    ∧ Event.spawnedWorkers 2 true ∈ (launch exCfgFSDP 2).2
    ∧ startedWorkers (launch exCfgBase 3).2 = [(0, 1)]
    ∧ (launch exCfgBase 3).2.any Event.isRdv = false := by
  obtain ⟨hf, -⟩ := claim6_topology exCfgFSDP 2
  obtain ⟨-, hb⟩ := claim6_topology exCfgBase 3
  obtain ⟨hf1, hf2⟩ := hf (by decide)
  obtain ⟨hb1, -, hb3, -⟩ := hb (by decide)
  exact ⟨hf1.trans rfl, hf2, hb1, hb3⟩

/-- C9: a configuration with unresolved required keys fails immediately:
the error is raised before anything else happens, so the event trace is
empty — no model is built, no checkpoint is read, no worker is launched. -/
theorem claim9_missing_keys (cfg : Config) (ckptAt : String → Option Checkpoint)
    (dc : Nat) (h : cfg.missing_keys ≠ []) :
    (runMain cfg ckptAt dc).1 = Except.error (Err.missingKeys cfg.missing_keys)
    ∧ (runMain cfg ckptAt dc).2 = [] := by
  unfold runMain
  rw [if_pos h]
  exact ⟨rfl, rfl⟩

/-- Example configuration with an unresolved required key. -/
def exCfgMissing : Config := { exCfgBase with missing_keys := ["model.name_or_path"] }

theorem claim9_missing_keys_inst :
    (runMain exCfgMissing exCkptAt 1).1
      = Except.error (Err.missingKeys ["model.name_or_path"])
    ∧ (runMain exCfgMissing exCkptAt 1).2 = [] :=
  claim9_missing_keys exCfgMissing exCkptAt 1 (by decide)

theorem restoreCheckpoint_none (cfg : Config) (ckptAt : String → Option Checkpoint)
    (policy : Model) (refm : Reference) (dm : Bool) (h : cfg.model.archive = none) :
    restoreCheckpoint cfg ckptAt policy refm dm = (Except.ok (policy, refm, none), []) := by
  unfold restoreCheckpoint
  rw [h]

theorem builtModel_mem (cfg : Config) (dm : Bool) :
    Event.builtModel cfg.model.name_or_path cfg.model.policy_dtype dm
      ∈ (buildPolicy cfg dm).2 := by
  simp only [buildPolicy]
  split <;> simp

theorem worker_main_unknown (cfg : Config) (r w : Nat) (h : cfg.trainer ∉ knownTrainers) :
    (worker_main cfg r w).1 = Except.error (Err.unknownTrainer cfg.trainer)
    ∧ Event.workerStarted r w ∈ (worker_main cfg r w).2 := by
  unfold worker_main
  rw [if_neg h]
  exact ⟨rfl, by simp⟩

theorem launch_unknown (cfg : Config) (dc : Nat) (hunk : cfg.trainer ∉ knownTrainers)
    (hdc : strContains cfg.trainer "FSDP" = false ∨ 0 < dc) :
    (launch cfg dc).1 = Except.error (Err.unknownTrainer cfg.trainer)
    ∧ ∃ r w, Event.workerStarted r w ∈ (launch cfg dc).2 := by
  by_cases hf : strContains cfg.trainer "FSDP" = true
  · have hdcpos : 0 < dc := by
      rcases hdc with h1 | h1
      · rw [h1] at hf
        cases hf
      · exact h1
    obtain ⟨n, rfl⟩ : ∃ n, dc = n + 1 := ⟨dc - 1, by omega⟩
    obtain ⟨hw1, hw2⟩ := worker_main_unknown cfg 0 (n + 1) hunk
    unfold launch
    rw [if_pos hf]
    constructor
    · simp only [List.range_succ_eq_map, List.map_cons, List.findSome?_cons, hw1]
    · refine ⟨0, n + 1, ?_⟩
      simp only [List.range_succ_eq_map, List.map_cons, List.map_map, List.flatten_cons]
      exact List.mem_cons_of_mem _ (List.mem_append_left _ hw2)
  · obtain ⟨hw1, hw2⟩ := worker_main_unknown cfg 0 1 hunk
    unfold launch
    rw [if_neg hf]
    exact ⟨hw1, 0, 1, List.mem_cons_of_mem _ hw2⟩

theorem runValidated_unknown (cfg : Config) (ckptAt : String → Option Checkpoint) (dc : Nat)
    (harc : cfg.model.archive = none) (hunk : cfg.trainer ∉ knownTrainers)
    (hdc : strContains cfg.trainer "FSDP" = false ∨ 0 < dc) :
    (runValidated cfg ckptAt dc).1 = Except.error (Err.unknownTrainer cfg.trainer)
    ∧ (∃ dmb : Bool, Event.builtModel cfg.model.name_or_path cfg.model.policy_dtype dmb
        ∈ (runValidated cfg ckptAt dc).2)
    ∧ (∃ r w : Nat, Event.workerStarted r w ∈ (runValidated cfg ckptAt dc).2) := by
  obtain ⟨hl1, r, w, hl2⟩ := launch_unknown cfg dc hunk hdc
  simp only [runValidated, restoreCheckpoint_none _ _ _ _ _ harc]
  refine ⟨by rw [hl1], ⟨cfg.trainer == "BasicTrainer", ?_⟩, ⟨r, w, ?_⟩⟩
  · simp [List.mem_append, builtModel_mem]
  · simp [List.mem_append, hl2]

theorem runMain_eq (cfg : Config) (ckptAt : String → Option Checkpoint) (dc : Nat)
    (h : cfg.missing_keys = []) :
    runMain cfg ckptAt dc
      = ((runValidated (validateEvalEvery cfg).1 ckptAt dc).1,
         (validateEvalEvery cfg).2 ++ (runValidated (validateEvalEvery cfg).1 ckptAt dc).2) := by
  unfold runMain
  rw [if_neg (by simp [h])]

/-- Example configuration naming an unknown trainer variant, with a
non-`dpo` loss and no archive. -/
def exCfgUnknown : Config := { exCfgBase with trainer := "MegaTrainer", loss_name := "sft" }

/-- C7 counterexample: the claim states that an unknown trainer variant is
rejected before any model is constructed and before any worker is launched.
On the concrete config `exCfgUnknown` the run does fail with the fatal
unknown-trainer error, yet the trace shows the policy model was built and a
worker body was started first: the error is raised at trainer-resolution
time inside the worker, not before model construction or worker launch. -/
theorem claim7_counterexample :
    knownTrainers.contains exCfgUnknown.trainer = false
    ∧ (runMain exCfgUnknown exCkptAt 1).1 = Except.error (Err.unknownTrainer "MegaTrainer")
    ∧ Event.builtModel "pythia" "float32" false ∈ (runMain exCfgUnknown exCkptAt 1).2
    ∧ Event.workerStarted 0 1 ∈ (runMain exCfgUnknown exCkptAt 1).2 :=
  ⟨by decide, rfl, by decide, by decide⟩

/-- C7 (amended): a validated configuration (no missing keys; here also no
checkpoint archive) naming an unknown trainer variant makes the run fail
with the fatal unknown-trainer error, but the error arises inside the
worker(s) at trainer-resolution time — after the policy model has been
constructed and after a worker body has started — not before model
construction or worker launch; for a distributed variant name this needs at
least one device, since with zero devices no worker ever runs. -/
theorem claim7_unknown_trainer_amended (cfg : Config) (ckptAt : String → Option Checkpoint)
    (dc : Nat) (hmk : cfg.missing_keys = []) (harc : cfg.model.archive = none)
    (hunk : cfg.trainer ∉ knownTrainers)
    (hdc : strContains cfg.trainer "FSDP" = false ∨ 0 < dc) :
    (runMain cfg ckptAt dc).1 = Except.error (Err.unknownTrainer cfg.trainer)
    ∧ (∃ dmb : Bool, Event.builtModel cfg.model.name_or_path cfg.model.policy_dtype dmb
        ∈ (runMain cfg ckptAt dc).2)
    ∧ (∃ r w : Nat, Event.workerStarted r w ∈ (runMain cfg ckptAt dc).2) := by
  obtain ⟨ht, hm, -, -, -, -, -, -, -⟩ := validateEvalEvery_fields cfg
  obtain ⟨h1, ⟨dmb, h2⟩, ⟨r, w, h3⟩⟩ :=
    runValidated_unknown (validateEvalEvery cfg).1 ckptAt dc
      (by rw [hm]; exact harc) (by rw [ht]; exact hunk) (by rw [ht]; exact hdc)
  rw [ht] at h1
  rw [hm] at h2
  rw [runMain_eq cfg ckptAt dc hmk]
  exact ⟨h1, ⟨dmb, List.mem_append_right _ h2⟩, ⟨r, w, List.mem_append_right _ h3⟩⟩

theorem claim7_unknown_trainer_amended_inst :
    (runMain exCfgUnknown exCkptAt 1).1 = Except.error (Err.unknownTrainer "MegaTrainer")
    ∧ (∃ dmb : Bool, Event.builtModel "pythia" "float32" dmb
        ∈ (runMain exCfgUnknown exCkptAt 1).2)
    ∧ (∃ r w : Nat, Event.workerStarted r w ∈ (runMain exCfgUnknown exCkptAt 1).2) :=
  claim7_unknown_trainer_amended exCfgUnknown exCkptAt 1 rfl rfl (by decide) (Or.inl (by decide))

end DPOTrain
